import Mathlib

/-
Verification of the Ubuntu network manager of the bosh go_agent
(src/go_agent/src/bosh/platform/net/ubuntu_net_manager.go) against its
natural-language specification.

The Go code is shallowly embedded: the filesystem is an association list
from path to content (a missing file reads as the empty string, as the
convergent-write contract specifies), external observable actions
(file writes, command invocations, the asynchronous announcer launch and
its completion signal) are recorded as an explicit event trace, and the
fallible operations return Except.
-/

set_option linter.unusedVariables false

namespace BoshNet

/-- Desired network attachment; the fields of `boshsettings.Network` that
`ubuntu_net_manager.go` reads: IP, Netmask, Gateway, Mac, DNS, and the
Default category list that designates the DNS-authoritative network. -/
structure Network where
  IP : String
  Netmask : String
  Gateway : String
  Mac : String
  DNS : List String
  Default : List String
  deriving Repr, DecidableEq

/-- The `customNetwork` struct of the net package. Its five fields are
pinned by the positional literal in `writeNetworkInterfaces`
(`customNetwork{aNet, macAddresses[aNet.Mac], network, broadcast, true}`)
together with the template's field accesses (`.Interface`, `.IP`,
`.NetworkIP`, `.Netmask`, `.Broadcast`, `.HasDefaultGateway`, `.Gateway`):
an embedded Network plus Interface, NetworkIP, Broadcast and the only
boolean field HasDefaultGateway. -/
structure CustomNetwork where
  network : Network
  Interface : String
  NetworkIP : String
  Broadcast : String
  HasDefaultGateway : Bool
  deriving Repr, DecidableEq

/-- Observable actions of the net manager, in program order. -/
inductive Event where
  | convergeWrite (path content : String) (written : Bool)
  | plainWrite (path content : String)
  | runCmd (name : String) (args : List String)
  | launchArp (networks : List CustomNetwork) (hasErrCh : Bool)
  | signalDone (result : Option String)
  deriving Repr, DecidableEq

/-- Ambient host state consulted by the manager: the `/sys/class/net`
device entries as (device name, address-file content) pairs, the stdout
of the `ifup --version` probe, whether the `dhclient3` binary exists,
an oracle saying which external commands fail, and an oracle saying
which file paths fail on write. -/
structure Env where
  devices : List (String × String)
  ifupVersionOut : String
  dhclient3Exists : Bool
  cmdFails : String → List String → Bool
  writeFailsAt : String → Bool

/-- Filesystem contents: an association list from path to content;
the most recent write is at the head. -/
abbrev FS := List (String × String)

def fsRead : FS → String → String
  | [], _ => ""
  | (k, v) :: rest, p => if k == p then v else fsRead rest p

def fsSet (fs : FS) (p c : String) : FS := (p, c) :: fs

/-- Modelled from the spec: `ConvergeFileContents` belongs to the
filesystem collaborator (bosh/system), which is not under src.
Contract in the spec: compare newContent against the file's current
on-disk content (a non-existent file is treated as empty) and write
only on difference, returning whether a write occurred; the write
itself may fail. -/
def ConvergeFileContents (env : Env) (fs : FS) (p c : String) :
    Except String (Bool × FS) :=
  if fsRead fs p == c then Except.ok (false, fs)
  else if env.writeFailsAt p then Except.error ("Writing file " ++ p)
  else Except.ok (true, fsSet fs p c)

/-- Modelled from the spec: the plain `WriteFile` of the filesystem
contract (`writeFile(path, bytes) -> error`), not under src. -/
def WriteFile (env : Env) (fs : FS) (p c : String) : Except String FS :=
  if env.writeFailsAt p then Except.error ("Writing file " ++ p)
  else Except.ok (fsSet fs p c)

/-- The `strings.Trim(macAddress, "\n")` of `detectMacAddresses`:
drop newline characters from both ends. -/
def trimNl (s : String) : String :=
  ⟨((s.toList.dropWhile (fun c => c == '\n')).reverse.dropWhile
      (fun c => c == '\n')).reverse⟩

/-- `detectMacAddresses`: for every device entry under /sys/class/net,
read its address file, trim newlines, and index interface name by MAC.
Later devices overwrite earlier ones with the same MAC, as in a Go map;
prepending combined with a first-match lookup realises that. -/
def detectMacAddresses (devices : List (String × String)) :
    List (String × String) :=
  devices.foldl (fun acc d => (trimNl d.2, d.1) :: acc) []

/-- Go map read `macAddresses[aNet.Mac]`: a missing key yields the zero
value, the empty string. -/
def lookupOrEmpty (m : List (String × String)) (k : String) : String :=
  match m.find? (fun e => e.1 == k) with
  | some e => e.2
  | none => ""

/-- Modelled from the spec: `DefaultNetworkFor` lives in the settings
package, not under src. The spec says only the network flagged as
DNS-authoritative contributes, at most one per call is so designated,
and absence means no resolver entries: the first network whose Default
categories contain the requested category. -/
def DefaultNetworkFor (networks : List Network) (category : String) :
    Option Network :=
  networks.find? (fun n => n.Default.contains category)

/-- `getDNSServers`: the Go loop appends the authoritative network's DNS
entries from the last index down to 0, i.e. the reversed list; no
authoritative network gives the empty list. -/
def getDNSServers (networks : List Network) : List String :=
  match DefaultNetworkFor networks "dns" with
  | some dnsNetwork => dnsNetwork.DNS.reverse
  | none => []

/-- Split a character chain at dots, keeping empty components. -/
def splitOnDotAux (acc : List Char) : List Char → List (List Char)
  | [] => [acc.reverse]
  | c :: rest =>
    if c == '.' then acc.reverse :: splitOnDotAux [] rest
    else splitOnDotAux (c :: acc) rest

def parseNatAux (acc : Nat) : List Char → Option Nat
  | [] => some acc
  | c :: rest =>
    if c.isDigit then parseNatAux (acc * 10 + (c.toNat - 48)) rest
    else none

/-- Decimal parse of a nonempty digit chain. -/
def parseNatChars : List Char → Option Nat
  | [] => none
  | l => parseNatAux 0 l

/-- Modelled from the spec: `boshsys.CalculateNetworkAndBroadcast` is in
the system package, not under src. Contract in the spec: parse address
and mask, bitwise AND for the network address, OR with the mask's
complement for the broadcast address, error on malformed input. -/
def parseOctets (s : String) : Option (List Nat) := do
  let parts ← (splitOnDotAux [] s.toList).mapM parseNatChars
  if parts.length == 4 && parts.all (fun n => decide (n ≤ 255)) then
    pure parts
  else none

def fmtOctets (l : List Nat) : String :=
  String.intercalate "." (l.map toString)

def CalculateNetworkAndBroadcast (ip netmask : String) :
    Option (String × String) := do
  let ipOct ← parseOctets ip
  let maskOct ← parseOctets netmask
  pure (fmtOctets (List.zipWith (fun a b => a &&& b) ipOct maskOct),
        fmtOctets (List.zipWith (fun a b => a ||| (255 ^^^ b)) ipOct maskOct))

/-- Concatenation of rendered pieces, as Go's template range emits them. -/
def concatMapStr {α : Type} (f : α → String) : List α → String
  | [] => ""
  | a :: l => f a ++ concatMapStr f l

/-- One per-network stanza of `ubuntuNetworkInterfacesTemplate`, exactly
as text/template expands the range body (no trim markers, so every
literal newline of the template is kept; the gateway line is emitted
only under `.HasDefaultGateway`). -/
def renderStanza (c : CustomNetwork) : String :=
  "\nauto " ++ c.Interface ++ "\niface " ++ c.Interface
    ++ " inet static\n    address " ++ c.network.IP
    ++ "\n    network " ++ c.NetworkIP
    ++ "\n    netmask " ++ c.network.Netmask
    ++ "\n    broadcast " ++ c.Broadcast ++ "\n"
    ++ (if c.HasDefaultGateway then "    gateway " ++ c.network.Gateway
        else "")

/-- The tail of a stanza after its address label: everything the template
emits after `    address `. -/
def stanzaTail (c : CustomNetwork) : String :=
  c.network.IP ++ "\n    network " ++ c.NetworkIP ++ "\n    netmask "
    ++ c.network.Netmask ++ "\n    broadcast " ++ c.Broadcast ++ "\n"
    ++ (if c.HasDefaultGateway then "    gateway " ++ c.network.Gateway
        else "")

/-- Full expansion of `ubuntuNetworkInterfacesTemplate`. -/
def renderNetworkInterfaces (ns : List CustomNetwork) : String :=
  "# Generated by bosh-agent\nauto lo\niface lo inet loopback\n"
    ++ concatMapStr renderStanza ns

/-- Full expansion of `ubuntuResolvConfTemplate`: header plus one
nameserver line per server. -/
def renderResolvConf (servers : List String) : String :=
  "# Generated by bosh-agent\n"
    ++ concatMapStr (fun s => "nameserver " ++ s ++ "\n") servers

/-- Full expansion of `ubuntuDHCPConfigTemplate` at the comma-joined
server list. -/
def renderDhcpConfig (serversJoined : String) : String :=
  "# Generated by bosh-agent\n\noption rfc3442-classless-static-routes code 121 = array of unsigned integer 8;\n\nsend host-name \"<hostname>\";\n\nrequest subnet-mask, broadcast-address, time-offset, routers,\n\tdomain-name, domain-name-servers, domain-search, host-name,\n\tnetbios-name-servers, netbios-scope, interface-mtu,\n\trfc3442-classless-static-routes, ntp-servers;\n\nprepend domain-name-servers " ++ serversJoined ++ ";\n"

/-- Chain p is an initial segment of chain s. -/
def isSubChainAt : List Char → List Char → Bool
  | [], _ => true
  | _ :: _, [] => false
  | a :: ps, b :: ss => a == b && isSubChainAt ps ss

/-- Chain p occurs somewhere inside chain s. -/
def hasSubChain (p : List Char) : List Char → Bool
  | [] => isSubChainAt p []
  | b :: ss => isSubChainAt p (b :: ss) || hasSubChain p ss

/-- `ifupVersion07Regex.MatchString(stdout)`: the pattern
`ifup version 0\.7` is a literal (the dot is escaped), and MatchString
is unanchored, so a match is an occurrence of the literal substring. -/
def ifupVersion07Matches (stdout : String) : Bool :=
  hasSubChain ("ifup version 0.7").toList stdout.toList

/-- `restartNetworkArguments`: probe output matching the 0.7 signature
selects `-a --no-loopback`, anything else `-a --exclude=lo`. -/
def restartNetworkArguments (stdout : String) : List String :=
  if ifupVersion07Matches stdout then ["-a", "--no-loopback"]
  else ["-a", "--exclude=lo"]

/-- `dhclientConfigFile`: path depends on whether dhclient3 exists. -/
def dhclientConfigFile (env : Env) : String :=
  if env.dhclient3Exists then "/etc/dhcp3/dhclient.conf"
  else "/etc/dhcp/dhclient.conf"

/-- `SetupDhcp`: render the dhclient config over the reversed DNS list,
converge-write it, and only when the write reports a change run the
version probe and the ifdown/ifup bounce; command failures are logged
and swallowed, so only the converge write can fail the call. -/
def SetupDhcp (env : Env) (fs : FS) (networks : List Network) :
    Except String (FS × List Event) :=
  let dnsServers := getDNSServers networks
  let dnsServersList := String.intercalate ", " dnsServers
  let content := renderDhcpConfig dnsServersList
  let path := dhclientConfigFile env
  match ConvergeFileContents env fs path content with
  | Except.error e => Except.error ("Writing to " ++ path ++ ": " ++ e)
  | Except.ok (written, fs1) =>
    if written then
      Except.ok (fs1,
        [Event.convergeWrite path content true,
         Event.runCmd "ifup" ["--version"],
         Event.runCmd "ifdown" (restartNetworkArguments env.ifupVersionOut),
         Event.runCmd "ifup" (restartNetworkArguments env.ifupVersionOut)])
    else
      Except.ok (fs1, [Event.convergeWrite path content false])

/-- The customNetwork built per desired network in
`writeNetworkInterfaces`: the positional literal fills Interface from
the MAC map (empty string when absent), NetworkIP and Broadcast from
the subnet arithmetic, and HasDefaultGateway with the literal `true`. -/
def mkCustomNetwork (env : Env) (aNet : Network) (nb : String × String) :
    CustomNetwork :=
  { network := aNet
    Interface := lookupOrEmpty (detectMacAddresses env.devices) aNet.Mac
    NetworkIP := nb.1
    Broadcast := nb.2
    HasDefaultGateway := true }

/-- The resolution loop of `writeNetworkInterfaces`: per network compute
network and broadcast (first failure aborts) and build a customNetwork. -/
def resolveNetworks (env : Env) : List Network → Except String (List CustomNetwork)
  | [] => Except.ok []
  | aNet :: rest =>
    match CalculateNetworkAndBroadcast aNet.IP aNet.Netmask with
    | none => Except.error "Calculating network and broadcast"
    | some nb =>
      match resolveNetworks env rest with
      | Except.error e => Except.error e
      | Except.ok tail => Except.ok (mkCustomNetwork env aNet nb :: tail)

/-- `writeNetworkInterfaces`: resolve, render the interfaces template,
converge-write /etc/network/interfaces, and report the resolved list and
whether a write occurred. -/
def writeNetworkInterfaces (env : Env) (fs : FS) (networks : List Network) :
    Except String (List CustomNetwork × Bool × FS × List Event) :=
  match resolveNetworks env networks with
  | Except.error e => Except.error e
  | Except.ok modifiedNetworks =>
    let content := renderNetworkInterfaces modifiedNetworks
    match ConvergeFileContents env fs "/etc/network/interfaces" content with
    | Except.error e => Except.error e
    | Except.ok (written, fs1) =>
      Except.ok (modifiedNetworks, written, fs1,
        [Event.convergeWrite "/etc/network/interfaces" content written])

/-- `restartNetworkingInterfaces`: per resolved network, stop then start
the per-interface service; failures are logged and swallowed. -/
def restartNetworkingInterfaces : List CustomNetwork → List Event
  | [] => []
  | n :: rest =>
    Event.runCmd "service"
        ["network-interface", "stop", "INTERFACE=" ++ n.Interface] ::
      Event.runCmd "service"
        ["network-interface", "start", "INTERFACE=" ++ n.Interface] ::
      restartNetworkingInterfaces rest

/-- `writeResolvConf`: render the resolver template and write
/etc/resolv.conf with the plain (unconditional) write. -/
def writeResolvConf (env : Env) (fs : FS) (networks : List Network) :
    Except String (FS × List Event) :=
  let content := renderResolvConf (getDNSServers networks)
  match WriteFile env fs "/etc/resolv.conf" content with
  | Except.error e => Except.error e
  | Except.ok fs1 => Except.ok (fs1, [Event.plainWrite "/etc/resolv.conf" content])

/-- One round of the announcer: one gratuitous arping per network, in
list order. -/
def arpRound (ns : List CustomNetwork) : List Event :=
  ns.map (fun n =>
    Event.runCmd "arping" ["-c", "1", "-U", "-I", n.Interface, n.network.IP])

/-- `gratuitiousArp`: six rounds over the networks in stable order, then,
when a channel was supplied, a single nil completion signal. -/
def gratuitiousArp (ns : List CustomNetwork) (hasErrCh : Bool) : List Event :=
  (((List.range 6).map (fun _ => arpRound ns)).flatten)
    ++ (if hasErrCh then [Event.signalDone none] else [])

/-- `SetupManualNetworking`: converge the interfaces file, bounce the
per-interface services only when that write reported a change, write
resolv.conf unconditionally, then launch the announcer asynchronously
(the launch is recorded as an event; the announcer's own actions are the
separate `gratuitiousArp` trace and do not appear in the caller's
trace). -/
def SetupManualNetworking (env : Env) (fs : FS) (networks : List Network)
    (hasErrCh : Bool) : Except String (FS × List Event) :=
  match writeNetworkInterfaces env fs networks with
  | Except.error e => Except.error ("Writing network interfaces: " ++ e)
  | Except.ok (modifiedNetworks, written, fs1, ev1) =>
    let ev2 := if written then restartNetworkingInterfaces modifiedNetworks
               else []
    match writeResolvConf env fs1 networks with
    | Except.error e => Except.error ("Writing resolv.conf: " ++ e)
    | Except.ok (fs2, ev3) =>
      Except.ok (fs2, ev1 ++ ev2 ++ ev3
        ++ [Event.launchArp modifiedNetworks hasErrCh])

/-- Recognisers over the event trace. -/
def isServiceCmd : Event → Bool
  | Event.runCmd "service" _ => true
  | _ => false

def isArping : Event → Bool
  | Event.runCmd "arping" _ => true
  | _ => false

def isSignal : Event → Bool
  | Event.signalDone _ => true
  | _ => false

def isPlainWriteTo (p : String) : Event → Bool
  | Event.plainWrite q _ => q == p
  | _ => false

def isPlainWriteEv : Event → Bool
  | Event.plainWrite _ _ => true
  | _ => false

def isConvergeTo (p : String) : Event → Bool
  | Event.convergeWrite q _ _ => q == p
  | _ => false

def isLaunchEv : Event → Bool
  | Event.launchArp _ _ => true
  | _ => false

/-- A write that changes the filesystem: a plain write, or a converge
write that reported a change. -/
def isFileWriteEv : Event → Bool
  | Event.plainWrite _ _ => true
  | Event.convergeWrite _ _ w => w
  | _ => false

def okEvents : Except String (FS × List Event) → List Event
  | Except.ok (_, evs) => evs
  | Except.error _ => []

def okFS : Except String (FS × List Event) → FS
  | Except.ok (fs, _) => fs
  | Except.error _ => []

def isOkE {ε α : Type} : Except ε α → Bool
  | Except.ok _ => true
  | Except.error _ => false

/-- The interfaces file content a call would converge, over the resolved
networks; empty on resolution failure. -/
def renderedFor (env : Env) (networks : List Network) : String :=
  match resolveNetworks env networks with
  | Except.ok nets => renderNetworkInterfaces nets
  | Except.error _ => ""

/-- All resolved networks have the HasDefaultGateway flag set. -/
def allHaveDefaultGateway (r : Except String (List CustomNetwork)) : Bool :=
  match r with
  | Except.ok nets => nets.all (fun c => c.HasDefaultGateway)
  | Except.error _ => false

/-- Number of resolved networks; 0 on failure. -/
def resolvedCount (r : Except String (List CustomNetwork)) : Nat :=
  match r with
  | Except.ok nets => nets.length
  | Except.error _ => 0

/-- Concrete host used to evaluate the operations: one device eth0 with
MAC aa:bb:cc, an ifup probe answering a 0.7 version, no dhclient3, no
command failures, no write failures. -/
def baseEnv : Env :=
  { devices := [("eth0", "aa:bb:cc\n")]
    ifupVersionOut := "ifup version 0.7.47"
    dhclient3Exists := false
    cmdFails := fun _ _ => false
    writeFailsAt := fun _ => false }

/-- A fully resolvable manual network whose MAC matches eth0 and which is
DNS-authoritative with three servers. -/
def netFull : Network :=
  { IP := "192.168.1.5", Netmask := "255.255.255.0",
    Gateway := "192.168.1.1", Mac := "aa:bb:cc",
    DNS := ["8.8.8.8", "8.8.4.4", "1.1.1.1"], Default := ["dns"] }

/-- Same network but with a MAC matching no device. -/
def netNoMac : Network :=
  { IP := "192.168.1.5", Netmask := "255.255.255.0",
    Gateway := "192.168.1.1", Mac := "zz:zz:zz",
    DNS := ["8.8.8.8"], Default := ["dns"] }

/-- Same network but with an empty gateway. -/
def netNoGw : Network :=
  { IP := "192.168.1.5", Netmask := "255.255.255.0",
    Gateway := "", Mac := "aa:bb:cc",
    DNS := [], Default := [] }

/- Helper lemmas about the embedding. -/

theorem fsRead_set_same (fs : FS) (p c : String) :
    fsRead (fsSet fs p c) p = c := by
  simp [fsRead, fsSet]

theorem fsRead_set_diff (fs : FS) (p q c : String) (h : (q == p) = false) :
    fsRead (fsSet fs q c) p = fsRead fs p := by
  simp [fsRead, fsSet, h]

theorem concatMapStr_append {α : Type} (f : α → String) (l1 l2 : List α) :
    concatMapStr f (l1 ++ l2) = concatMapStr f l1 ++ concatMapStr f l2 := by
  induction l1 with
  | nil => simp [concatMapStr, String.empty_append]
  | cons a l ih => simp [concatMapStr, ih, String.append_assoc]

@[simp] theorem isArping_runArping (args : List String) :
    isArping (Event.runCmd "arping" args) = true := rfl

@[simp] theorem isSignal_runCmd (nm : String) (args : List String) :
    isSignal (Event.runCmd nm args) = false := rfl

@[simp] theorem isSignal_done (r : Option String) :
    isSignal (Event.signalDone r) = true := rfl

theorem arpRound_countP_arping (ns : List CustomNetwork) :
    (arpRound ns).countP isArping = ns.length := by
  rw [arpRound, List.countP_map]
  have h : (isArping ∘ fun n : CustomNetwork =>
      Event.runCmd "arping" ["-c", "1", "-U", "-I", n.Interface, n.network.IP])
      = fun _ => true := funext (fun n => rfl)
  rw [h, List.countP_true]

theorem arpRound_countP_signal (ns : List CustomNetwork) :
    (arpRound ns).countP isSignal = 0 := by
  rw [arpRound, List.countP_map]
  have h : (isSignal ∘ fun n : CustomNetwork =>
      Event.runCmd "arping" ["-c", "1", "-U", "-I", n.Interface, n.network.IP])
      = fun _ => false := funext (fun n => rfl)
  rw [h]
  exact List.countP_false.symm ▸ rfl

theorem gratuitiousArp_shape (ns : List CustomNetwork) (ch : Bool) :
    gratuitiousArp ns ch =
      arpRound ns ++ (arpRound ns ++ (arpRound ns ++ (arpRound ns ++
        (arpRound ns ++ (arpRound ns ++
          (if ch then [Event.signalDone none] else [])))))) := by
  have h6 : List.range 6 = [0, 1, 2, 3, 4, 5] := by decide
  rw [gratuitiousArp, h6]
  simp [List.flatten, List.append_assoc]

@[simp] theorem isServiceCmd_converge (p c : String) (w : Bool) :
    isServiceCmd (Event.convergeWrite p c w) = false := rfl

@[simp] theorem isServiceCmd_plain (p c : String) :
    isServiceCmd (Event.plainWrite p c) = false := rfl

@[simp] theorem isServiceCmd_launch (ns : List CustomNetwork) (b : Bool) :
    isServiceCmd (Event.launchArp ns b) = false := rfl

@[simp] theorem isServiceCmd_service (args : List String) :
    isServiceCmd (Event.runCmd "service" args) = true := rfl

@[simp] theorem isArping_converge (p c : String) (w : Bool) :
    isArping (Event.convergeWrite p c w) = false := rfl

@[simp] theorem isArping_plain (p c : String) :
    isArping (Event.plainWrite p c) = false := rfl

@[simp] theorem isArping_launch (ns : List CustomNetwork) (b : Bool) :
    isArping (Event.launchArp ns b) = false := rfl

@[simp] theorem isArping_service (args : List String) :
    isArping (Event.runCmd "service" args) = false := rfl

@[simp] theorem isPlainWriteEv_converge (p c : String) (w : Bool) :
    isPlainWriteEv (Event.convergeWrite p c w) = false := rfl

@[simp] theorem isPlainWriteEv_plain (p c : String) :
    isPlainWriteEv (Event.plainWrite p c) = true := rfl

@[simp] theorem isPlainWriteEv_run (nm : String) (args : List String) :
    isPlainWriteEv (Event.runCmd nm args) = false := rfl

@[simp] theorem isPlainWriteEv_launch (ns : List CustomNetwork) (b : Bool) :
    isPlainWriteEv (Event.launchArp ns b) = false := rfl

@[simp] theorem isPlainWriteTo_converge (p q c : String) (w : Bool) :
    isPlainWriteTo p (Event.convergeWrite q c w) = false := rfl

@[simp] theorem isPlainWriteTo_plain (p q c : String) :
    isPlainWriteTo p (Event.plainWrite q c) = (q == p) := rfl

@[simp] theorem isPlainWriteTo_run (p nm : String) (args : List String) :
    isPlainWriteTo p (Event.runCmd nm args) = false := rfl

@[simp] theorem isPlainWriteTo_launch (p : String) (ns : List CustomNetwork)
    (b : Bool) : isPlainWriteTo p (Event.launchArp ns b) = false := rfl

@[simp] theorem isConvergeTo_converge (p q c : String) (w : Bool) :
    isConvergeTo p (Event.convergeWrite q c w) = (q == p) := rfl

@[simp] theorem isConvergeTo_plain (p q c : String) :
    isConvergeTo p (Event.plainWrite q c) = false := rfl

@[simp] theorem isConvergeTo_run (p nm : String) (args : List String) :
    isConvergeTo p (Event.runCmd nm args) = false := rfl

@[simp] theorem isConvergeTo_launch (p : String) (ns : List CustomNetwork)
    (b : Bool) : isConvergeTo p (Event.launchArp ns b) = false := rfl

/-- Every event of the per-interface bounce is a service command. -/
theorem restart_shape (ns : List CustomNetwork) :
    ∀ e ∈ restartNetworkingInterfaces ns, ∃ args, e = Event.runCmd "service" args := by
  induction ns with
  | nil => intro e he; simp [restartNetworkingInterfaces] at he
  | cons n rest ih =>
    intro e he
    simp only [restartNetworkingInterfaces, List.mem_cons] at he
    rcases he with rfl | rfl | he
    · exact ⟨_, rfl⟩
    · exact ⟨_, rfl⟩
    · exact ih e he

/-- Resolution along a network list: each input network contributes the
customNetwork built from it. -/
theorem resolveNetworks_mem (env : Env) :
    ∀ (ns : List Network) (nets : List CustomNetwork),
      resolveNetworks env ns = Except.ok nets →
      ∀ aNet ∈ ns, ∃ nb,
        CalculateNetworkAndBroadcast aNet.IP aNet.Netmask = some nb ∧
        mkCustomNetwork env aNet nb ∈ nets := by
  intro ns
  induction ns with
  | nil => intro nets h aNet hmem; simp at hmem
  | cons a rest ih =>
    intro nets h aNet hmem
    unfold resolveNetworks at h
    cases hcalc : CalculateNetworkAndBroadcast a.IP a.Netmask with
    | none => rw [hcalc] at h; simp at h
    | some nb =>
      rw [hcalc] at h
      cases hrec : resolveNetworks env rest with
      | error e => rw [hrec] at h; simp at h
      | ok tail =>
        rw [hrec] at h
        simp only [Except.ok.injEq] at h
        rcases List.mem_cons.mp hmem with rfl | hmem'
        · exact ⟨nb, hcalc, by rw [← h]; exact List.mem_cons_self _ _⟩
        · obtain ⟨nb', hc', hm'⟩ := ih tail hrec aNet hmem'
          exact ⟨nb', hc', by rw [← h]; exact List.mem_cons_of_mem _ hm'⟩

/-- Every resolved network carries the HasDefaultGateway flag, because
the source fills that field with the literal true. -/
theorem resolveNetworks_allGw (env : Env) :
    ∀ (ns : List Network) (nets : List CustomNetwork),
      resolveNetworks env ns = Except.ok nets →
      ∀ c ∈ nets, c.HasDefaultGateway = true := by
  intro ns
  induction ns with
  | nil =>
    intro nets h c hc
    simp only [resolveNetworks, Except.ok.injEq] at h
    rw [← h] at hc
    simp at hc
  | cons a rest ih =>
    intro nets h c hc
    unfold resolveNetworks at h
    cases hcalc : CalculateNetworkAndBroadcast a.IP a.Netmask with
    | none => rw [hcalc] at h; simp at h
    | some nb =>
      rw [hcalc] at h
      cases hrec : resolveNetworks env rest with
      | error e => rw [hrec] at h; simp at h
      | ok tail =>
        rw [hrec] at h
        simp only [Except.ok.injEq] at h
        rw [← h] at hc
        rcases List.mem_cons.mp hc with rfl | hc'
        · rfl
        · exact ih tail hrec c hc'

/-- A member's stanza occurs inside the rendered interfaces file. -/
theorem render_decomp (nets : List CustomNetwork) (c : CustomNetwork)
    (hmem : c ∈ nets) :
    ∃ pre post, renderNetworkInterfaces nets = pre ++ (renderStanza c ++ post) := by
  obtain ⟨s, t, rfl⟩ := List.append_of_mem hmem
  refine ⟨"# Generated by bosh-agent\nauto lo\niface lo inet loopback\n"
    ++ concatMapStr renderStanza s, concatMapStr renderStanza t, ?_⟩
  rw [renderNetworkInterfaces, concatMapStr_append]
  simp [concatMapStr, String.append_assoc]

/-- A stanza whose network has the gateway flag ends in a gateway line. -/
theorem stanza_gateway (c : CustomNetwork) (hgw : c.HasDefaultGateway = true) :
    ∃ front, renderStanza c = front ++ ("    gateway " ++ c.network.Gateway) := by
  refine ⟨"\nauto " ++ c.Interface ++ "\niface " ++ c.Interface
    ++ " inet static\n    address " ++ c.network.IP ++ "\n    network "
    ++ c.NetworkIP ++ "\n    netmask " ++ c.network.Netmask
    ++ "\n    broadcast " ++ c.Broadcast ++ "\n", ?_⟩
  rw [renderStanza, hgw]
  simp [String.append_assoc]

/-- A stanza for an empty interface name starts with empty auto and
iface labels. -/
theorem stanza_emptyInterface (c : CustomNetwork) (hI : c.Interface = "") :
    renderStanza c = "\nauto \niface  inet static\n    address " ++ stanzaTail c := by
  rw [renderStanza, stanzaTail, hI]
  simp only [String.append_empty]
  have hlit : ("\nauto " ++ "\niface ") ++ " inet static\n    address "
      = "\nauto \niface  inet static\n    address " := rfl
  rw [← hlit]
  simp [String.append_assoc]

/-- Shape of a static-setup call whose interfaces file already matches. -/
theorem setupManual_shape_unchanged (env : Env) (fs : FS)
    (networks : List Network) (ch : Bool) (nets : List CustomNetwork)
    (hres : resolveNetworks env networks = Except.ok nets)
    (hcv : (fsRead fs "/etc/network/interfaces"
            == renderNetworkInterfaces nets) = true)
    (hw2 : env.writeFailsAt "/etc/resolv.conf" = false) :
    SetupManualNetworking env fs networks ch =
      Except.ok (fsSet fs "/etc/resolv.conf"
          (renderResolvConf (getDNSServers networks)),
        [Event.convergeWrite "/etc/network/interfaces"
           (renderNetworkInterfaces nets) false,
         Event.plainWrite "/etc/resolv.conf"
           (renderResolvConf (getDNSServers networks)),
         Event.launchArp nets ch]) := by
  unfold SetupManualNetworking writeNetworkInterfaces ConvergeFileContents
    writeResolvConf WriteFile
  rw [hres]
  simp [hcv, hw2]

/-- Shape of a static-setup call whose interfaces file differs. -/
theorem setupManual_shape_changed (env : Env) (fs : FS)
    (networks : List Network) (ch : Bool) (nets : List CustomNetwork)
    (hres : resolveNetworks env networks = Except.ok nets)
    (hcv : (fsRead fs "/etc/network/interfaces"
            == renderNetworkInterfaces nets) = false)
    (hw1 : env.writeFailsAt "/etc/network/interfaces" = false)
    (hw2 : env.writeFailsAt "/etc/resolv.conf" = false) :
    SetupManualNetworking env fs networks ch =
      Except.ok (fsSet (fsSet fs "/etc/network/interfaces"
            (renderNetworkInterfaces nets)) "/etc/resolv.conf"
          (renderResolvConf (getDNSServers networks)),
        Event.convergeWrite "/etc/network/interfaces"
            (renderNetworkInterfaces nets) true
          :: (restartNetworkingInterfaces nets
            ++ [Event.plainWrite "/etc/resolv.conf"
                  (renderResolvConf (getDNSServers networks)),
                Event.launchArp nets ch])) := by
  unfold SetupManualNetworking writeNetworkInterfaces ConvergeFileContents
    writeResolvConf WriteFile
  rw [hres]
  simp [hcv, hw1, hw2]

/-- Inversion of a successful static-setup call: resolution succeeded,
the resolver write did not fail, and the result is one of the two
shapes, unchanged or changed. -/
theorem setupManual_cases (env : Env) (fs : FS) (networks : List Network)
    (ch : Bool) (out : FS × List Event)
    (h : SetupManualNetworking env fs networks ch = Except.ok out) :
    ∃ nets, resolveNetworks env networks = Except.ok nets ∧
      env.writeFailsAt "/etc/resolv.conf" = false ∧
      (((fsRead fs "/etc/network/interfaces"
            == renderNetworkInterfaces nets) = true ∧
          out = (fsSet fs "/etc/resolv.conf"
              (renderResolvConf (getDNSServers networks)),
            [Event.convergeWrite "/etc/network/interfaces"
               (renderNetworkInterfaces nets) false,
             Event.plainWrite "/etc/resolv.conf"
               (renderResolvConf (getDNSServers networks)),
             Event.launchArp nets ch])) ∨
       ((fsRead fs "/etc/network/interfaces"
            == renderNetworkInterfaces nets) = false ∧
          env.writeFailsAt "/etc/network/interfaces" = false ∧
          out = (fsSet (fsSet fs "/etc/network/interfaces"
                (renderNetworkInterfaces nets)) "/etc/resolv.conf"
              (renderResolvConf (getDNSServers networks)),
            Event.convergeWrite "/etc/network/interfaces"
                (renderNetworkInterfaces nets) true
              :: (restartNetworkingInterfaces nets
                ++ [Event.plainWrite "/etc/resolv.conf"
                      (renderResolvConf (getDNSServers networks)),
                    Event.launchArp nets ch])))) := by
  unfold SetupManualNetworking writeNetworkInterfaces ConvergeFileContents
    writeResolvConf WriteFile at h
  cases hres : resolveNetworks env networks with
  | error e => rw [hres] at h; simp at h
  | ok nets =>
    rw [hres] at h
    refine ⟨nets, rfl, ?_⟩
    by_cases hcv : (fsRead fs "/etc/network/interfaces"
        == renderNetworkInterfaces nets) = true
    · by_cases hw2 : env.writeFailsAt "/etc/resolv.conf" = true
      · simp [hcv, hw2] at h
      · have hw2f : env.writeFailsAt "/etc/resolv.conf" = false := by
          simpa using hw2
        simp [hcv, hw2f] at h
        exact ⟨hw2f, Or.inl ⟨hcv, h.symm⟩⟩
    · have hcvf : (fsRead fs "/etc/network/interfaces"
          == renderNetworkInterfaces nets) = false := by simpa using hcv
      by_cases hw1 : env.writeFailsAt "/etc/network/interfaces" = true
      · simp [hcvf, hw1] at h
      · have hw1f : env.writeFailsAt "/etc/network/interfaces" = false := by
          simpa using hw1
        by_cases hw2 : env.writeFailsAt "/etc/resolv.conf" = true
        · simp [hcvf, hw1f, hw2] at h
        · have hw2f : env.writeFailsAt "/etc/resolv.conf" = false := by
            simpa using hw2
          simp [hcvf, hw1f, hw2f] at h
          exact ⟨hw2f, Or.inr ⟨hcvf, hw1f, h.symm⟩⟩

/-- Shape of writeNetworkInterfaces when resolution succeeds and the
target path accepts writes. -/
theorem writeNetworkInterfaces_ok (env : Env) (fs : FS)
    (networks : List Network) (nets : List CustomNetwork)
    (hres : resolveNetworks env networks = Except.ok nets)
    (hw : env.writeFailsAt "/etc/network/interfaces" = false) :
    ∃ written fs1, writeNetworkInterfaces env fs networks =
      Except.ok (nets, written, fs1,
        [Event.convergeWrite "/etc/network/interfaces"
           (renderNetworkInterfaces nets) written]) := by
  unfold writeNetworkInterfaces ConvergeFileContents
  rw [hres]
  by_cases hcv : (fsRead fs "/etc/network/interfaces"
      == renderNetworkInterfaces nets) = true
  · exact ⟨false, fs, by simp [hcv]⟩
  · have hcvf : (fsRead fs "/etc/network/interfaces"
        == renderNetworkInterfaces nets) = false := by simpa using hcv
    exact ⟨true, fsSet fs "/etc/network/interfaces"
      (renderNetworkInterfaces nets), by simp [hcvf, hw]⟩

/- C3 -/

/-- C3: for every output of the ifup version probe, a match of the 0.7
signature yields restart arguments `-a --no-loopback`, and a non-match
yields `-a --exclude=lo`. -/
theorem restartNetworkArguments_correct (s : String) :
    (ifupVersion07Matches s = true →
      restartNetworkArguments s = ["-a", "--no-loopback"]) ∧
    (ifupVersion07Matches s = false →
      restartNetworkArguments s = ["-a", "--exclude=lo"]) := by
  constructor <;> intro h <;> simp [restartNetworkArguments, h]

theorem restartNetworkArguments_correct_witness :
    restartNetworkArguments "ifup version 0.7.47" = ["-a", "--no-loopback"] ∧
    restartNetworkArguments "ifup version 8" = ["-a", "--exclude=lo"] :=
  ⟨(restartNetworkArguments_correct "ifup version 0.7.47").1 (by decide),
   (restartNetworkArguments_correct "ifup version 8").2 (by decide)⟩

/- C5 -/

/-- C5: for N resolved networks the announcer issues exactly 6*N ARP
announcements, in six rounds each visiting the networks in the same
list order, and when a completion channel was supplied it delivers
exactly one nil completion, placed after the last announcement. -/
theorem gratuitiousArp_correct (ns : List CustomNetwork) (ch : Bool) :
    (gratuitiousArp ns ch).countP isArping = 6 * ns.length ∧
    gratuitiousArp ns true =
      arpRound ns ++ (arpRound ns ++ (arpRound ns ++ (arpRound ns ++
        (arpRound ns ++ (arpRound ns ++ [Event.signalDone none]))))) ∧
    gratuitiousArp ns false =
      arpRound ns ++ (arpRound ns ++ (arpRound ns ++ (arpRound ns ++
        (arpRound ns ++ arpRound ns)))) ∧
    (gratuitiousArp ns ch).countP isSignal = (if ch then 1 else 0) := by
  refine ⟨?_, ?_, ?_, ?_⟩
  · rw [gratuitiousArp_shape]
    simp [List.countP_append, arpRound_countP_arping]
    cases ch <;> simp [isArping] <;> omega
  · rw [gratuitiousArp_shape]
    simp [List.append_assoc]
  · rw [gratuitiousArp_shape]
    simp [List.append_assoc]
  · rw [gratuitiousArp_shape]
    simp [List.countP_append, arpRound_countP_signal]
    cases ch <;> simp

/- C4 -/

/-- C4: with DNS list [a, b, c] on the authoritative network the
resolver config lists nameserver c, nameserver b, nameserver a in that
order (the reverse of the input), and with no authoritative network no
nameserver lines are produced. -/
theorem dns_reversal_correct (networks : List Network) :
    (∀ n a b c, DefaultNetworkFor networks "dns" = some n →
      n.DNS = [a, b, c] →
      renderResolvConf (getDNSServers networks) =
        "# Generated by bosh-agent\n" ++ ("nameserver " ++ c ++ "\n")
          ++ ("nameserver " ++ b ++ "\n") ++ ("nameserver " ++ a ++ "\n")) ∧
    (DefaultNetworkFor networks "dns" = none →
      renderResolvConf (getDNSServers networks) =
        "# Generated by bosh-agent\n") := by
  constructor
  · intro n a b c h1 h2
    simp only [getDNSServers, h1, h2]
    simp [renderResolvConf, concatMapStr, String.append_assoc,
      String.append_empty]
  · intro h
    simp [getDNSServers, h, renderResolvConf, concatMapStr,
      String.append_empty]

theorem dns_reversal_correct_witness :
    renderResolvConf (getDNSServers [netFull]) =
      "# Generated by bosh-agent\n" ++ ("nameserver " ++ "1.1.1.1" ++ "\n")
        ++ ("nameserver " ++ "8.8.4.4" ++ "\n")
        ++ ("nameserver " ++ "8.8.8.8" ++ "\n") :=
  (dns_reversal_correct [netFull]).1 netFull "8.8.8.8" "8.8.4.4" "1.1.1.1"
    (by decide) (by decide)

/- C1 -/

/-- C1 counterexample: at a concrete call whose single network has a MAC
matching no device, SetupManualNetworking succeeds rather than failing,
and performs two actual file writes (the interfaces converge write and
the resolv.conf write), contradicting the claimed failure with no
writes. -/
theorem setupManual_missingMac_counterexample :
    isOkE (SetupManualNetworking baseEnv [] [netNoMac] false) = true ∧
    (okEvents (SetupManualNetworking baseEnv [] [netNoMac] false)).countP
      isFileWriteEv = 2 := by
  decide

/-- C1 (amended): a NetworkSpec whose MAC has no matching device in the
resolved map does not make SetupManualNetworking fail: the call returns
success, the interfaces file is converge-written and resolv.conf is
written, the unmatched network receiving an empty interface name. -/
theorem setupManual_missingMac_amended (env : Env) (fs : FS)
    (networks : List Network) (ch : Bool) (nets : List CustomNetwork)
    (hres : resolveNetworks env networks = Except.ok nets)
    (hw1 : env.writeFailsAt "/etc/network/interfaces" = false)
    (hw2 : env.writeFailsAt "/etc/resolv.conf" = false)
    (hmac : ∃ aNet ∈ networks,
      lookupOrEmpty (detectMacAddresses env.devices) aNet.Mac = "") :
    ∃ fs2 evs, SetupManualNetworking env fs networks ch = Except.ok (fs2, evs) ∧
      (∃ w, Event.convergeWrite "/etc/network/interfaces"
          (renderNetworkInterfaces nets) w ∈ evs) ∧
      Event.plainWrite "/etc/resolv.conf"
          (renderResolvConf (getDNSServers networks)) ∈ evs := by
  by_cases hcv : (fsRead fs "/etc/network/interfaces"
      == renderNetworkInterfaces nets) = true
  · have h := setupManual_shape_unchanged env fs networks ch nets hres hcv hw2
    exact ⟨_, _, h, ⟨false, by simp⟩, by simp⟩
  · have hcvf : (fsRead fs "/etc/network/interfaces"
        == renderNetworkInterfaces nets) = false := by simpa using hcv
    have h := setupManual_shape_changed env fs networks ch nets hres hcvf hw1 hw2
    exact ⟨_, _, h, ⟨true, by simp⟩, by simp⟩

theorem setupManual_missingMac_amended_witness :
    ∃ fs2 evs, SetupManualNetworking baseEnv [] [netNoMac] false
        = Except.ok (fs2, evs) ∧
      (∃ w, Event.convergeWrite "/etc/network/interfaces"
          (renderedFor baseEnv [netNoMac]) w ∈ evs) ∧
      Event.plainWrite "/etc/resolv.conf"
          (renderResolvConf (getDNSServers [netNoMac])) ∈ evs := by
  rcases hr : resolveNetworks baseEnv [netNoMac] with e | nets
  · have hok : isOkE (resolveNetworks baseEnv [netNoMac]) = true := by decide
    rw [hr] at hok
    simp [isOkE] at hok
  · have hrf : renderedFor baseEnv [netNoMac] = renderNetworkInterfaces nets := by
      simp [renderedFor, hr]
    rw [hrf]
    exact setupManual_missingMac_amended baseEnv [] [netNoMac] false nets hr
      (by rfl) (by rfl) ⟨netNoMac, by simp, by decide⟩

/- C2 -/

/-- C2 counterexample: at a concrete network whose gateway is the empty
string, the ResolvedNetwork built by the static setup nevertheless has
HasDefaultGateway set, and the rendered interfaces file carries a
gateway line for it, contradicting the claimed equivalence with a
non-empty gateway. -/
theorem hasDefaultGateway_counterexample :
    netNoGw.Gateway = "" ∧
    resolvedCount (resolveNetworks baseEnv [netNoGw]) = 1 ∧
    allHaveDefaultGateway (resolveNetworks baseEnv [netNoGw]) = true ∧
    hasSubChain ("broadcast 192.168.1.255\n    gateway ").toList
      (renderedFor baseEnv [netNoGw]).toList = true := by
  decide

/-- C2 (amended): every ResolvedNetwork built by the static setup has
HasDefaultGateway = true regardless of its gateway value, and the
rendered stanza for every resolved network therefore contains a gateway
line. -/
theorem hasDefaultGateway_amended (env : Env) (networks : List Network)
    (nets : List CustomNetwork)
    (hres : resolveNetworks env networks = Except.ok nets) :
    (∀ c ∈ nets, c.HasDefaultGateway = true) ∧
    (∀ c ∈ nets, ∃ pre post, renderNetworkInterfaces nets =
       pre ++ (("    gateway " ++ c.network.Gateway) ++ post)) := by
  have hall := resolveNetworks_allGw env networks nets hres
  refine ⟨hall, ?_⟩
  intro c hc
  obtain ⟨pre, post, hdec⟩ := render_decomp nets c hc
  obtain ⟨front, hst⟩ := stanza_gateway c (hall c hc)
  refine ⟨pre ++ front, post, ?_⟩
  rw [hdec, hst]
  simp [String.append_assoc]

theorem hasDefaultGateway_amended_witness :
    allHaveDefaultGateway (resolveNetworks baseEnv [netNoGw]) = true := by
  rcases hr : resolveNetworks baseEnv [netNoGw] with e | nets
  · have hok : isOkE (resolveNetworks baseEnv [netNoGw]) = true := by decide
    rw [hr] at hok
    simp [isOkE] at hok
  · have h := (hasDefaultGateway_amended baseEnv [netNoGw] nets hr).1
    simp only [allHaveDefaultGateway]
    exact List.all_eq_true.mpr h

/- C6 -/

/-- C6: calling SetupManualNetworking twice with the same topology and
unchanged host state triggers zero service stop/start commands on the
second call, because the second converge of the interfaces file reports
no change. -/
theorem setupManual_idempotent (env : Env) (fs : FS)
    (networks : List Network) (ch : Bool) (fs1 : FS) (ev1 : List Event)
    (h1 : SetupManualNetworking env fs networks ch = Except.ok (fs1, ev1)) :
    ∃ fs2 ev2, SetupManualNetworking env fs1 networks ch = Except.ok (fs2, ev2) ∧
      ev2.countP isServiceCmd = 0 := by
  obtain ⟨nets, hres, hw2, hcase⟩ :=
    setupManual_cases env fs networks ch (fs1, ev1) h1
  have hread : fsRead fs1 "/etc/network/interfaces"
      = renderNetworkInterfaces nets := by
    rcases hcase with ⟨hcv, hout⟩ | ⟨hcv, hw1, hout⟩
    · have hfs1 : fs1 = fsSet fs "/etc/resolv.conf"
          (renderResolvConf (getDNSServers networks)) :=
        congrArg Prod.fst hout
      rw [hfs1, fsRead_set_diff fs _ _ _ (by decide)]
      exact beq_iff_eq.mp hcv
    · have hfs1 : fs1 = fsSet (fsSet fs "/etc/network/interfaces"
            (renderNetworkInterfaces nets)) "/etc/resolv.conf"
          (renderResolvConf (getDNSServers networks)) :=
        congrArg Prod.fst hout
      rw [hfs1, fsRead_set_diff _ _ _ _ (by decide), fsRead_set_same]
  have hcv2 : (fsRead fs1 "/etc/network/interfaces"
      == renderNetworkInterfaces nets) = true := by
    rw [hread]
    simp
  have h2 := setupManual_shape_unchanged env fs1 networks ch nets hres hcv2 hw2
  refine ⟨_, _, h2, ?_⟩
  simp [List.countP_cons, List.countP_nil]

theorem setupManual_idempotent_witness :
    ∃ fs2 ev2, SetupManualNetworking baseEnv
        (okFS (SetupManualNetworking baseEnv [] [netFull] false))
        [netFull] false = Except.ok (fs2, ev2) ∧
      ev2.countP isServiceCmd = 0 := by
  rcases hr : SetupManualNetworking baseEnv [] [netFull] false with e | p
  · have hok : isOkE (SetupManualNetworking baseEnv [] [netFull] false)
        = true := by decide
    rw [hr] at hok
    simp [isOkE] at hok
  · have h := setupManual_idempotent baseEnv [] [netFull] false p.1 p.2
      (by rw [hr])
    simpa [okFS] using h

/- C7 -/

/-- C7: the DHCP full-stack bounce (ifdown then ifup) runs exactly when
the converge write of the dhclient config reported a change; the call
succeeds whenever that write does (or was skipped), fails exactly when
the write fails, and its outcome never depends on the command-failure
oracle, since command failures are swallowed. The constant template
renders totally, so no rendering failure arises in the model. -/
theorem setupDhcp_error_handling (env : Env) (fs : FS)
    (networks : List Network) :
    ((fsRead fs (dhclientConfigFile env) ==
        renderDhcpConfig (String.intercalate ", " (getDNSServers networks)))
        = true →
      SetupDhcp env fs networks = Except.ok (fs,
        [Event.convergeWrite (dhclientConfigFile env)
           (renderDhcpConfig (String.intercalate ", " (getDNSServers networks)))
           false])) ∧
    ((fsRead fs (dhclientConfigFile env) ==
        renderDhcpConfig (String.intercalate ", " (getDNSServers networks)))
        = false →
      env.writeFailsAt (dhclientConfigFile env) = false →
      SetupDhcp env fs networks = Except.ok
        (fsSet fs (dhclientConfigFile env)
           (renderDhcpConfig (String.intercalate ", " (getDNSServers networks))),
         [Event.convergeWrite (dhclientConfigFile env)
            (renderDhcpConfig (String.intercalate ", " (getDNSServers networks)))
            true,
          Event.runCmd "ifup" ["--version"],
          Event.runCmd "ifdown" (restartNetworkArguments env.ifupVersionOut),
          Event.runCmd "ifup" (restartNetworkArguments env.ifupVersionOut)])) ∧
    ((fsRead fs (dhclientConfigFile env) ==
        renderDhcpConfig (String.intercalate ", " (getDNSServers networks)))
        = false →
      env.writeFailsAt (dhclientConfigFile env) = true →
      SetupDhcp env fs networks = Except.error
        ("Writing to " ++ dhclientConfigFile env ++ ": "
          ++ ("Writing file " ++ dhclientConfigFile env))) ∧
    (∀ f g : String → List String → Bool,
      SetupDhcp { env with cmdFails := f } fs networks =
        SetupDhcp { env with cmdFails := g } fs networks) := by
  refine ⟨?_, ?_, ?_, ?_⟩
  · intro h
    simp [SetupDhcp, ConvergeFileContents, h]
  · intro h hw
    simp [SetupDhcp, ConvergeFileContents, h, hw]
  · intro h hw
    simp [SetupDhcp, ConvergeFileContents, h, hw]
  · intro f g
    rfl

theorem setupDhcp_error_handling_witness :
    SetupDhcp baseEnv [] [netFull] = Except.ok
      (fsSet [] (dhclientConfigFile baseEnv)
         (renderDhcpConfig (String.intercalate ", " (getDNSServers [netFull]))),
       [Event.convergeWrite (dhclientConfigFile baseEnv)
          (renderDhcpConfig (String.intercalate ", " (getDNSServers [netFull])))
          true,
        Event.runCmd "ifup" ["--version"],
        Event.runCmd "ifdown" (restartNetworkArguments baseEnv.ifupVersionOut),
        Event.runCmd "ifup" (restartNetworkArguments baseEnv.ifupVersionOut)]) :=
  (setupDhcp_error_handling baseEnv [] [netFull]).2.1 (by decide) (by rfl)

/- C8 -/

/-- Inversion of a successful SetupDhcp call. -/
theorem setupDhcp_cases (env : Env) (fsd : FS) (networks : List Network)
    (out : FS × List Event)
    (h : SetupDhcp env fsd networks = Except.ok out) :
    ((fsRead fsd (dhclientConfigFile env) ==
        renderDhcpConfig (String.intercalate ", " (getDNSServers networks)))
        = true ∧
      out = (fsd, [Event.convergeWrite (dhclientConfigFile env)
        (renderDhcpConfig (String.intercalate ", " (getDNSServers networks)))
        false])) ∨
    ((fsRead fsd (dhclientConfigFile env) ==
        renderDhcpConfig (String.intercalate ", " (getDNSServers networks)))
        = false ∧
      env.writeFailsAt (dhclientConfigFile env) = false ∧
      out = (fsSet fsd (dhclientConfigFile env)
          (renderDhcpConfig (String.intercalate ", " (getDNSServers networks))),
        [Event.convergeWrite (dhclientConfigFile env)
           (renderDhcpConfig (String.intercalate ", " (getDNSServers networks)))
           true,
         Event.runCmd "ifup" ["--version"],
         Event.runCmd "ifdown" (restartNetworkArguments env.ifupVersionOut),
         Event.runCmd "ifup" (restartNetworkArguments env.ifupVersionOut)])) := by
  unfold SetupDhcp ConvergeFileContents at h
  by_cases hcv : (fsRead fsd (dhclientConfigFile env) ==
      renderDhcpConfig (String.intercalate ", " (getDNSServers networks)))
      = true
  · simp [hcv] at h
    exact Or.inl ⟨hcv, h.symm⟩
  · have hcvf : (fsRead fsd (dhclientConfigFile env) ==
        renderDhcpConfig (String.intercalate ", " (getDNSServers networks)))
        = false := by simpa using hcv
    by_cases hw : env.writeFailsAt (dhclientConfigFile env) = true
    · simp [hcvf, hw] at h
    · have hwf : env.writeFailsAt (dhclientConfigFile env) = false := by
        simpa using hw
      simp [hcvf, hwf] at h
      exact Or.inr ⟨hcvf, hwf, h.symm⟩

/-- C8: on every successful static-setup call the trace contains exactly
one plain (unconditional) write, and it targets /etc/resolv.conf, while
the interfaces file appears exactly once and only as a converge write;
on every successful DHCP call there is no plain write at all and the
dhclient config appears exactly once as a converge write. -/
theorem resolv_write_unconditional (env : Env) (fs fsd : FS)
    (networks : List Network) (ch : Bool) :
    (∀ fs1 evs, SetupManualNetworking env fs networks ch = Except.ok (fs1, evs) →
      evs.countP isPlainWriteEv = 1 ∧
      evs.countP (isPlainWriteTo "/etc/resolv.conf") = 1 ∧
      evs.countP (isConvergeTo "/etc/network/interfaces") = 1) ∧
    (∀ fs2 evs2, SetupDhcp env fsd networks = Except.ok (fs2, evs2) →
      evs2.countP isPlainWriteEv = 0 ∧
      evs2.countP (isConvergeTo (dhclientConfigFile env)) = 1) := by
  constructor
  · intro fs1 evs h
    obtain ⟨nets, hres, hw2, hcase⟩ :=
      setupManual_cases env fs networks ch (fs1, evs) h
    rcases hcase with ⟨hcv, hout⟩ | ⟨hcv, hw1, hout⟩
    · have hevs : evs = [Event.convergeWrite "/etc/network/interfaces"
          (renderNetworkInterfaces nets) false,
        Event.plainWrite "/etc/resolv.conf"
          (renderResolvConf (getDNSServers networks)),
        Event.launchArp nets ch] := congrArg Prod.snd hout
      rw [hevs]
      refine ⟨?_, ?_, ?_⟩ <;> simp [List.countP_cons, List.countP_nil]
    · have hevs : evs = Event.convergeWrite "/etc/network/interfaces"
            (renderNetworkInterfaces nets) true
          :: (restartNetworkingInterfaces nets
            ++ [Event.plainWrite "/etc/resolv.conf"
                  (renderResolvConf (getDNSServers networks)),
                Event.launchArp nets ch]) := congrArg Prod.snd hout
      have hplain : (restartNetworkingInterfaces nets).countP isPlainWriteEv = 0 := by
        refine List.countP_eq_zero.mpr ?_
        intro e he
        obtain ⟨args, rfl⟩ := restart_shape nets e he
        simp
      have hplainTo : (restartNetworkingInterfaces nets).countP
          (isPlainWriteTo "/etc/resolv.conf") = 0 := by
        refine List.countP_eq_zero.mpr ?_
        intro e he
        obtain ⟨args, rfl⟩ := restart_shape nets e he
        simp
      have hconvTo : (restartNetworkingInterfaces nets).countP
          (isConvergeTo "/etc/network/interfaces") = 0 := by
        refine List.countP_eq_zero.mpr ?_
        intro e he
        obtain ⟨args, rfl⟩ := restart_shape nets e he
        simp
      rw [hevs]
      refine ⟨?_, ?_, ?_⟩ <;>
        simp [List.countP_cons, List.countP_nil, List.countP_append,
          hplain, hplainTo, hconvTo]
  · intro fs2 evs2 h
    rcases setupDhcp_cases env fsd networks (fs2, evs2) h with
      ⟨hcv, hout⟩ | ⟨hcv, hw, hout⟩
    · have hevs : evs2 = [Event.convergeWrite (dhclientConfigFile env)
          (renderDhcpConfig (String.intercalate ", " (getDNSServers networks)))
          false] := congrArg Prod.snd hout
      rw [hevs]
      constructor <;> simp [List.countP_cons, List.countP_nil]
    · have hevs : evs2 = [Event.convergeWrite (dhclientConfigFile env)
          (renderDhcpConfig (String.intercalate ", " (getDNSServers networks)))
          true,
        Event.runCmd "ifup" ["--version"],
        Event.runCmd "ifdown" (restartNetworkArguments env.ifupVersionOut),
        Event.runCmd "ifup" (restartNetworkArguments env.ifupVersionOut)] :=
        congrArg Prod.snd hout
      rw [hevs]
      constructor <;> simp [List.countP_cons, List.countP_nil]

theorem resolv_write_unconditional_witness :
    (okEvents (SetupManualNetworking baseEnv [] [netFull] false)).countP
      (isPlainWriteTo "/etc/resolv.conf") = 1 := by
  rcases hr : SetupManualNetworking baseEnv [] [netFull] false with e | p
  · have hok : isOkE (SetupManualNetworking baseEnv [] [netFull] false)
        = true := by decide
    rw [hr] at hok
    simp [isOkE] at hok
  · have h := (resolv_write_unconditional baseEnv [] [] [netFull] false).1
      p.1 p.2 (by rw [hr])
    simpa [okEvents] using h.2.1

/- C9 -/

/-- C9: every successful static-setup call produces its caller-visible
trace in the order converge-write of the interfaces file first, then the
per-interface restarts (all service commands), then the resolv.conf
write, and finally the announcer launch; no ARP announcement occurs in
the caller's trace, the announcer's own work being the separate
gratuitiousArp trace. -/
theorem setupManual_ordering (env : Env) (fs : FS) (networks : List Network)
    (ch : Bool) (fs1 : FS) (evs : List Event)
    (h : SetupManualNetworking env fs networks ch = Except.ok (fs1, evs)) :
    ∃ nets written rEvs,
      evs = Event.convergeWrite "/etc/network/interfaces"
          (renderNetworkInterfaces nets) written
        :: (rEvs ++ [Event.plainWrite "/etc/resolv.conf"
              (renderResolvConf (getDNSServers networks)),
            Event.launchArp nets ch]) ∧
      (∀ e ∈ rEvs, isServiceCmd e = true) ∧
      (∀ e ∈ evs, isArping e = false) := by
  obtain ⟨nets, hres, hw2, hcase⟩ :=
    setupManual_cases env fs networks ch (fs1, evs) h
  rcases hcase with ⟨hcv, hout⟩ | ⟨hcv, hw1, hout⟩
  · have hevs : evs = [Event.convergeWrite "/etc/network/interfaces"
        (renderNetworkInterfaces nets) false,
      Event.plainWrite "/etc/resolv.conf"
        (renderResolvConf (getDNSServers networks)),
      Event.launchArp nets ch] := congrArg Prod.snd hout
    refine ⟨nets, false, [], ?_, ?_, ?_⟩
    · rw [hevs]; rfl
    · intro e he; simp at he
    · intro e he
      rw [hevs] at he
      simp only [List.mem_cons, List.not_mem_nil, or_false] at he
      rcases he with rfl | rfl | rfl <;> simp
  · have hevs : evs = Event.convergeWrite "/etc/network/interfaces"
          (renderNetworkInterfaces nets) true
        :: (restartNetworkingInterfaces nets
          ++ [Event.plainWrite "/etc/resolv.conf"
                (renderResolvConf (getDNSServers networks)),
              Event.launchArp nets ch]) := congrArg Prod.snd hout
    refine ⟨nets, true, restartNetworkingInterfaces nets, hevs, ?_, ?_⟩
    · intro e he
      obtain ⟨args, rfl⟩ := restart_shape nets e he
      simp
    · intro e he
      rw [hevs] at he
      rcases List.mem_cons.mp he with rfl | he'
      · simp
      rcases List.mem_append.mp he' with he'' | he''
      · obtain ⟨args, rfl⟩ := restart_shape nets e he''
        simp
      · simp only [List.mem_cons, List.not_mem_nil, or_false] at he''
        rcases he'' with rfl | rfl <;> simp

theorem setupManual_ordering_witness :
    ∃ nets written rEvs,
      okEvents (SetupManualNetworking baseEnv [] [netFull] true) =
        Event.convergeWrite "/etc/network/interfaces"
            (renderNetworkInterfaces nets) written
          :: (rEvs ++ [Event.plainWrite "/etc/resolv.conf"
                (renderResolvConf (getDNSServers [netFull])),
              Event.launchArp nets true]) ∧
      (∀ e ∈ rEvs, isServiceCmd e = true) := by
  rcases hr : SetupManualNetworking baseEnv [] [netFull] true with e | p
  · have hok : isOkE (SetupManualNetworking baseEnv [] [netFull] true)
        = true := by decide
    rw [hr] at hok
    simp [isOkE] at hok
  · obtain ⟨nets, written, rEvs, heq, hsrv, _⟩ :=
      setupManual_ordering baseEnv [] [netFull] true p.1 p.2 (by rw [hr])
    exact ⟨nets, written, rEvs, by simpa [okEvents] using heq, hsrv⟩

/- C10 -/

/-- C10: a network whose MAC is absent from the detected map is resolved
with an empty interface name and no error; writeNetworkInterfaces still
succeeds and converge-writes the rendered file, whose text contains a
stanza with an empty interface name. -/
theorem missingMac_emptyInterface (env : Env) (fs : FS)
    (networks : List Network) (nets : List CustomNetwork) (aNet : Network)
    (hres : resolveNetworks env networks = Except.ok nets)
    (hmem : aNet ∈ networks)
    (hmac : (detectMacAddresses env.devices).find?
        (fun e => e.1 == aNet.Mac) = none)
    (hw : env.writeFailsAt "/etc/network/interfaces" = false) :
    (∃ c ∈ nets, c.network = aNet ∧ c.Interface = "") ∧
    (∃ written fs1, writeNetworkInterfaces env fs networks =
      Except.ok (nets, written, fs1,
        [Event.convergeWrite "/etc/network/interfaces"
           (renderNetworkInterfaces nets) written])) ∧
    (∃ pre post, renderNetworkInterfaces nets =
      pre ++ ("\nauto \niface  inet static\n    address " ++ post)) := by
  obtain ⟨nb, hcalc, hmemc⟩ := resolveNetworks_mem env networks nets hres aNet hmem
  have hI : (mkCustomNetwork env aNet nb).Interface = "" := by
    simp [mkCustomNetwork, lookupOrEmpty, hmac]
  refine ⟨⟨mkCustomNetwork env aNet nb, hmemc, rfl, hI⟩,
    writeNetworkInterfaces_ok env fs networks nets hres hw, ?_⟩
  obtain ⟨pre, post0, hdec⟩ := render_decomp nets (mkCustomNetwork env aNet nb) hmemc
  refine ⟨pre, stanzaTail (mkCustomNetwork env aNet nb) ++ post0, ?_⟩
  rw [hdec, stanza_emptyInterface (mkCustomNetwork env aNet nb) hI]
  simp [String.append_assoc]

theorem missingMac_emptyInterface_witness :
    ∃ pre post, renderedFor baseEnv [netNoMac] =
      pre ++ ("\nauto \niface  inet static\n    address " ++ post) := by
  rcases hr : resolveNetworks baseEnv [netNoMac] with e | nets
  · have hok : isOkE (resolveNetworks baseEnv [netNoMac]) = true := by decide
    rw [hr] at hok
    simp [isOkE] at hok
  · have h := missingMac_emptyInterface baseEnv [] [netNoMac] nets netNoMac hr
      (by simp) (by decide) (by rfl)
    have hrf : renderedFor baseEnv [netNoMac]
        = renderNetworkInterfaces nets := by
      simp [renderedFor, hr]
    rw [hrf]
    exact h.2.2

end BoshNet
